import Mathlib

/-!
# Verification of the librusimg image-document abstraction

A shallow embedding of the `librusimg` Rust crate (src/lib.rs, src/backend.rs,
src/errors.rs, src/extension.rs, src/structs.rs and the per-format backends
src/backend/{png,jpeg,webp,empty}/mod.rs), together with proofs settling the
specification claims about it.

Modelling conventions:
* `u32` / `usize` values are embedded as `Nat`; where the source performs `u32`
  arithmetic that can wrap (the `trim.x + trim.w` sums and the `as u32`
  casts inside `trim`), the embedding takes the result `% 2^32` explicitly.
* `f32` values (resize ratios, compression qualities) are embedded as `ℚ`;
  the claims proved below do not depend on floating-point rounding, only on
  comparisons against exactly-representable constants and on which value is
  stored, so exact rational arithmetic is faithful.
* Byte buffers are `List Nat`.
* File-system paths are lists of components (stem plus optional extension);
  whether a path names a directory is a property of the file system, passed
  in as a predicate, as are the raw contents of files.
* The external collaborators (the `image` crate decoder and pixel transforms,
  `oxipng`, `mozjpeg`, the `webp` codec) are out of scope per spec §1/§6 and
  are embedded as opaque-but-deterministic functions: either parameters of the
  operation, or symbolic constructors of the `Pix` type recording exactly
  which service was applied to which input.  Distinct services yield
  syntactically distinct results, which is all the claims need.
* Filesystem metadata is embedded as `Option Unit` (present/absent only).
-/

/-- 2^32, the modulus of Rust `u32` arithmetic. -/
def U32 : Nat := 4294967296

/-- src/structs.rs `Rect`: a crop region; the four fields are `u32` in the
source and are embedded as `Nat` (wrapping is made explicit at use sites). -/
structure Rect where
  x : Nat
  y : Nat
  w : Nat
  h : Nat
deriving Repr, DecidableEq

/-- src/structs.rs `ImgSize`: `width` and `height` are `usize` in the source. -/
structure ImgSize where
  width : Nat
  height : Nat
deriving Repr, DecidableEq

/-- src/structs.rs `ImgSize::new`. -/
def ImgSize.new (width height : Nat) : ImgSize :=
  ⟨width, height⟩

/-- src/errors.rs `RusimgError`.  String payloads carry diagnostic messages
from external libraries.

Note: the constructors `DestinationPathMustBeSpecified` and
`InvalidResizeRatio` are *not* declared in src/errors.rs (which declares
`SourcePathMustBeSpecified` but no resize-ratio variant), yet they are the
variants referenced by `BackendTrait::get_save_filepath` (src/backend.rs:137,
152), `RusImg::get_input_filepath` (src/lib.rs:171) and `RusImg::resize`
(src/lib.rs:62, with its own test at src/lib.rs:559-579).  They are included
here so that those call sites can be embedded as written. -/
inductive RusimgError where
  | FailedToOpenFile (s : String)
  | FailedToReadFile (s : String)
  | FailedToGetMetadata (s : String)
  | FailedToOpenImage (s : String)
  | FailedToSaveImage (s : String)
  | FailedToCopyBinaryData (s : String)
  | FailedToGetFilename (p : List String)
  | FailedToCreateFile (s : String)
  | FailedToWriteFIle (s : String)
  | FailedToDecodeWebp
  | FailedToEncodeWebp (s : String)
  | FailedToCompressImage (s : Option String)
  | FailedToConvertPathToString
  | InvalidCompressionLevel
  | InvalidTrimXY
  | ImageFormatCannotBeCompressed
  | UnsupportedFileExtension
  | UnsupportedFeature
  | ImageNotSpecified
  | SourcePathMustBeSpecified
  | DestinationPathMustBeSpecified
  | InvalidResizeRatio
deriving Repr, DecidableEq

/-- src/extension.rs `Extension`.  The source's final variant is
`ExternalFormat(String)`; it is named `OtherFormat` here for lexical reasons
only. -/
inductive Extension where
  | Bmp
  | Jpg
  | Jpeg
  | Png
  | Webp
  | OtherFormat (s : String)
deriving Repr, DecidableEq

/-- One path component: a file/directory name split as stem plus optional
extension, mirroring what `Path::file_name` / `Path::extension` /
`Path::with_extension` act on. -/
structure PathComp where
  stem : String
  ext : Option String
deriving Repr, DecidableEq

/-- A file-system path, embedded as its list of components. -/
abbrev FsPath : Type := List PathComp

/-- Rust `Path::file_name`: the final component, if any. -/
def fsFileName (p : FsPath) : Option PathComp :=
  p.getLast?

/-- Rust `Path::extension().and_then(|s| s.to_str()).unwrap_or("")`:
the extension of the final component, or the empty string. -/
def fsExtensionStr (p : FsPath) : String :=
  match fsFileName p with
  | some c =>
    match c.ext with
    | some e => e
    | none => ""
  | none => ""

/-- Rust `PathBuf::with_extension`: replace the final component's extension;
a path without a file name is returned unchanged. -/
def fsWithExtension (p : FsPath) (newExt : String) : FsPath :=
  match p.reverse with
  | [] => p
  | c :: rest => (({ c with ext := some newExt } : PathComp) :: rest).reverse

/-- Rust `Path::join` with a single file-name component. -/
def fsJoin (p : FsPath) (c : PathComp) : FsPath :=
  p ++ [c]

/-- Pixel-buffer contents, tracked symbolically.  Each constructor records one
application of an external pixel service (spec §6 collaborator contracts) to
its inputs; the services are deterministic, so equal constructor trees mean
equal pixel data and distinct encodings written by `save` are told apart by
their constructors. -/
inductive Pix where
  /-- pixels produced by decoding a byte buffer (`image::load_from_memory`
  or the webp decoder). -/
  | fromBytes (bytes : List Nat)
  /-- an arbitrary caller-supplied `DynamicImage`, identified by a tag. -/
  | given (id : Nat)
  /-- `DynamicImage::resize(nw, nh, Lanczos3)`. -/
  | resized (p : Pix) (nw nh : Nat)
  /-- `DynamicImage::crop(x, y, w, h)`. -/
  | cropped (p : Pix) (x y w h : Nat)
  /-- `DynamicImage::grayscale()`. -/
  | gray (p : Pix)
  /-- `DynamicImage::to_rgba8()`. -/
  | rgba8 (p : Pix)
  /-- the alpha-channel removal performed by the jpeg backend's
  `remove_alpha_channel` helper. -/
  | noAlpha (p : Pix)
deriving Repr, DecidableEq

/-- A `image::DynamicImage`: symbolic pixel contents plus its pixel
dimensions. -/
structure DynImage where
  pix : Pix
  w : Nat
  h : Nat
deriving Repr, DecidableEq

/-- Modelled from the spec: the external resize service
(`DynamicImage::resize`), a black box per spec §6 whose contract (§4.1) is to
produce an image of the requested dimensions. -/
def imResize (img : DynImage) (nw nh : Nat) : DynImage :=
  ⟨Pix.resized img.pix nw nh, nw, nh⟩

/-- Modelled from the spec: the external crop service (`DynamicImage::crop`),
a black box per spec §6; for the in-bounds rectangles the backends pass it,
the output has the requested dimensions. -/
def imCrop (img : DynImage) (x y w h : Nat) : DynImage :=
  ⟨Pix.cropped img.pix x y w h, w, h⟩

/-- Modelled from the spec: the external grayscale service
(`DynamicImage::grayscale`), dimension-preserving. -/
def imGray (img : DynImage) : DynImage :=
  ⟨Pix.gray img.pix, img.w, img.h⟩

/-- Modelled from the spec: `DynamicImage::to_rgba8`, a channel-layout
conversion that preserves dimensions. -/
def imToRgba8 (img : DynImage) : DynImage :=
  ⟨Pix.rgba8 img.pix, img.w, img.h⟩

/-- Modelled from the spec: the jpeg backend's `remove_alpha_channel` helper
(src/backend/jpeg/mod.rs:23-35); the channel conversion is performed by the
external `image` crate and preserves dimensions. -/
def jpegRemoveAlpha (img : DynImage) : DynImage :=
  ⟨Pix.noAlpha img.pix, img.w, img.h⟩

/-- The dimension computation of the backends' `resize`:
`(len as f32 * (resize_ratio / 100.0)) as usize`, i.e. scale and truncate
toward zero, with Rust's saturating negative-to-`usize` cast giving 0. -/
def ratioScale (len : Nat) (ratio : ℚ) : Nat :=
  (⌊(len : ℚ) * (ratio / 100)⌋).toNat

/-- The trim-size computation shared verbatim by `PngImage::trim`
(src/backend/png/mod.rs:158-170), `JpegImage::trim`
(src/backend/jpeg/mod.rs:142-154), `WebpImage::trim`
(src/backend/webp/mod.rs:139-150) and `EmptyImage::trim`
(src/backend/empty/mod.rs:84-95): given the stored geometry `W × H` (`usize`)
and the requested rect, either the corrected width/height or
`InvalidTrimXY`.  The sums `trim.x + trim.w` and `trim.y + trim.h` are `u32`
additions (taken `% 2^32`), and `self.width as u32 - trim.x` is a `u32`
subtraction of a truncating cast. -/
def trimCore (W H : Nat) (r : Rect) : Except RusimgError (Nat × Nat) :=
  let sx := (r.x + r.w) % U32
  let sy := (r.y + r.h) % U32
  if W < sx ∨ H < sy then
    if r.x < W ∧ r.y < H then
      let w := if W < sx then (W % U32 + (U32 - r.x % U32)) % U32 else r.w
      let h := if H < sy then (H % U32 + (U32 - r.y % U32)) % U32 else r.h
      Except.ok (w, h)
    else
      Except.error RusimgError.InvalidTrimXY
  else
    Except.ok (r.w, r.h)

/-- src/backend.rs:132-156, `BackendTrait::get_save_filepath` (the trait's
default method; every backend calls it from `save`).  `isDir` is the file
system's directory predicate (`Path::is_dir`). -/
def get_save_filepath (isDir : FsPath → Bool) (source_filepath : Option FsPath)
    (destination_filepath : Option FsPath) (new_extension : String) :
    Except RusimgError FsPath :=
  match destination_filepath with
  | some path =>
    if isDir path then
      match source_filepath with
      | none => Except.error RusimgError.DestinationPathMustBeSpecified
      | some sp =>
        match fsFileName sp with
        | none => Except.error (RusimgError.FailedToGetFilename (sp.map PathComp.stem))
        | some filename => Except.ok (fsWithExtension (fsJoin path filename) new_extension)
    else
      Except.ok path
  | none =>
    match source_filepath with
    | none => Except.error RusimgError.DestinationPathMustBeSpecified
    | some sp => Except.ok (fsWithExtension sp new_extension)

/-! ## The Png backend (src/backend/png/mod.rs) -/

/-- src/backend/png/mod.rs:8-20, `PngImage`.  `binary_data` holds the raw
bytes captured at open/import time, `image_bytes` the optional cached
oxipng output.  The two `Metadata` fields are embedded as present/absent. -/
structure PngImage where
  binary_data : List Nat
  image : DynImage
  image_bytes : Option (List Nat)
  width : Nat
  height : Nat
  operations_count : Nat
  metadata_input : Option Unit
  metadata_output : Option Unit
  filepath_input : Option FsPath
  filepath_output : Option FsPath
deriving Repr, DecidableEq

/-- src/backend/png/mod.rs:24-44, `PngImage::import`.  `writeToPng` is the
external `DynamicImage::write_to(..., ImageFormat::Png)` encoder (a byte
buffer per image, or a diagnostic on failure). -/
def PngImage.import (writeToPng : DynImage → Except String (List Nat))
    (image : Option DynImage) (source_path : Option FsPath)
    (source_metadata : Option Unit) : Except RusimgError PngImage :=
  match image with
  | none => Except.error RusimgError.ImageNotSpecified
  | some image =>
    match writeToPng image with
    | Except.error e => Except.error (RusimgError.FailedToCopyBinaryData e)
    | Except.ok new_binary_data =>
      Except.ok
        { binary_data := new_binary_data
          image := image
          image_bytes := none
          width := image.w
          height := image.h
          operations_count := 0
          metadata_input := source_metadata
          metadata_output := none
          filepath_input := source_path
          filepath_output := none }

/-- src/backend/png/mod.rs:47-67, `PngImage::open`.  `loadMem` is the
external `image::load_from_memory` decoder, returning the decoded image's
dimensions (its pixels are `Pix.fromBytes buf`). -/
def PngImage.open (loadMem : List Nat → Except String (Nat × Nat))
    (path : Option FsPath) (image_buf : Option (List Nat))
    (metadata : Option Unit) : Except RusimgError PngImage :=
  match path with
  | none => Except.error RusimgError.ImageNotSpecified
  | some path =>
    match image_buf with
    | none => Except.error RusimgError.ImageNotSpecified
    | some image_buf =>
      match metadata with
      | none => Except.error RusimgError.ImageNotSpecified
      | some metadata =>
        match loadMem image_buf with
        | Except.error e => Except.error (RusimgError.FailedToOpenImage e)
        | Except.ok (w, h) =>
          Except.ok
            { binary_data := image_buf
              image := ⟨Pix.fromBytes image_buf, w, h⟩
              image_bytes := none
              width := w
              height := h
              operations_count := 0
              metadata_input := some metadata
              metadata_output := none
              filepath_input := some path
              filepath_output := none }

/-- What `PngImage::save` writes to the resolved path: the cached compressed
buffer when present, else the encoding of the live `DynamicImage`
(`self.image.save(&save_path)`). -/
inductive PngWritten where
  | cachedBytes (b : List Nat)
  | encodedImage (img : DynImage)
deriving Repr, DecidableEq

/-- src/backend/png/mod.rs:70-88, `PngImage::save`.  The file write itself is
external; the embedding returns what is written.  A successful write fills
`metadata_output` and `filepath_output`. -/
def PngImage.save (isDir : FsPath → Bool) (st : PngImage)
    (path : Option FsPath) : Except RusimgError (PngImage × PngWritten) :=
  match get_save_filepath isDir st.filepath_input path "png" with
  | Except.error e => Except.error e
  | Except.ok save_path =>
    match st.image_bytes with
    | none =>
      Except.ok
        ({ st with metadata_output := some (), filepath_output := some save_path },
         PngWritten.encodedImage st.image)
    | some b =>
      Except.ok
        ({ st with metadata_output := some (), filepath_output := some save_path },
         PngWritten.cachedBytes b)

/-- The quality-to-level bucketing of src/backend/png/mod.rs:95-117
(`PngImage::compress`), with the source's exact nested conditions. -/
def pngLevelOf (quality : Option ℚ) : Nat :=
  match quality with
  | some q =>
    if q ≤ 17 then 1
    else if 17 < q ∧ q ≤ 34 then 2
    else if 34 < q ∧ q ≤ 51 then 3
    else if 51 < q ∧ q ≤ 68 then 4
    else if 68 < q ∧ q ≤ 85 then 5
    else 6
  | none => 5

/-- src/backend/png/mod.rs:93-140, `PngImage::compress` (success path).
`oxipng` is the external `oxipng::optimize_from_memory` run on the stored
`binary_data` with the bucketed preset level; it is embedded as total because
every claim concerns successful compress calls.  (On an optimizer error the
source in fact calls `.unwrap()` on an `Err` and panics rather than returning
the constructed `FailedToCompressImage`; no claim exercises that branch.) -/
def PngImage.compress (oxipng : List Nat → Nat → List Nat) (st : PngImage)
    (quality : Option ℚ) : PngImage :=
  let level := pngLevelOf quality
  { st with
    image_bytes := some (oxipng st.binary_data level)
    operations_count := st.operations_count + 1 }

/-- src/backend/png/mod.rs:143-154, `PngImage::resize`. -/
def PngImage.resize (st : PngImage) (resize_ratio : ℚ) :
    Except RusimgError (ImgSize × PngImage) :=
  let nwidth := ratioScale st.width resize_ratio
  let nheight := ratioScale st.height resize_ratio
  Except.ok
    (ImgSize.new nwidth nheight,
     { st with
       image := imResize st.image nwidth nheight
       width := nwidth
       height := nheight
       operations_count := st.operations_count + 1 })

/-- src/backend/png/mod.rs:158-178, `PngImage::trim`.  Note:
`operations_count` is not touched. -/
def PngImage.trim (st : PngImage) (trim : Rect) :
    Except RusimgError (ImgSize × PngImage) :=
  match trimCore st.width st.height trim with
  | Except.error e => Except.error e
  | Except.ok (w, h) =>
    Except.ok
      (ImgSize.new w h,
       { st with
         image := imCrop st.image trim.x trim.y w h
         width := w
         height := h })

/-- src/backend/png/mod.rs:181-184, `PngImage::grayscale`. -/
def PngImage.grayscale (st : PngImage) : PngImage :=
  { st with
    image := imGray st.image
    operations_count := st.operations_count + 1 }

/-- src/backend/png/mod.rs:187-190, `PngImage::set_dynamic_image`.  Only the
`image` field is replaced; `width`/`height` are left as they were. -/
def PngImage.set_dynamic_image (st : PngImage) (image : DynImage) :
    Except RusimgError PngImage :=
  Except.ok { st with image := image }

/-- src/backend/png/mod.rs:218-220, `PngImage::get_size`. -/
def PngImage.get_size (st : PngImage) : Except RusimgError ImgSize :=
  Except.ok (ImgSize.new st.width st.height)

/-! ## The Jpeg backend (src/backend/jpeg/mod.rs) -/

/-- src/backend/jpeg/mod.rs:10-21, `JpegImage`. -/
structure JpegImage where
  image : DynImage
  image_bytes : Option (List Nat)
  size : ImgSize
  operations_count : Nat
  extension_str : String
  metadata_input : Option Unit
  metadata_output : Option Unit
  filepath_input : Option FsPath
  filepath_output : Option FsPath
deriving Repr, DecidableEq

/-- src/backend/jpeg/mod.rs:39-56, `JpegImage::import`.  The size is taken
before `remove_alpha_channel` (which preserves dimensions). -/
def JpegImage.import (image : Option DynImage) (source_path : Option FsPath)
    (source_metadata : Option Unit) : Except RusimgError JpegImage :=
  match image with
  | none => Except.error RusimgError.ImageNotSpecified
  | some image =>
    Except.ok
      { image := jpegRemoveAlpha image
        image_bytes := none
        size := { width := image.w, height := image.h }
        operations_count := 0
        extension_str := "jpg"
        metadata_input := source_metadata
        metadata_output := none
        filepath_input := source_path
        filepath_output := none }

/-- src/backend/jpeg/mod.rs:59-82, `JpegImage::open`. -/
def JpegImage.open (loadMem : List Nat → Except String (Nat × Nat))
    (path : Option FsPath) (image_buf : Option (List Nat))
    (metadata : Option Unit) : Except RusimgError JpegImage :=
  match path with
  | none => Except.error RusimgError.ImageNotSpecified
  | some path =>
    match image_buf with
    | none => Except.error RusimgError.ImageNotSpecified
    | some image_buf =>
      match metadata with
      | none => Except.error RusimgError.ImageNotSpecified
      | some metadata =>
        match loadMem image_buf with
        | Except.error e => Except.error (RusimgError.FailedToOpenImage e)
        | Except.ok (w, h) =>
          Except.ok
            { image := jpegRemoveAlpha ⟨Pix.fromBytes image_buf, w, h⟩
              image_bytes := none
              size := { width := w, height := h }
              operations_count := 0
              extension_str := fsExtensionStr path
              metadata_input := some metadata
              metadata_output := none
              filepath_input := some path
              filepath_output := none }

/-- What `JpegImage::save` writes: the cached mozjpeg buffer when present,
else the rgba8 re-encoding of the live image
(`self.image.to_rgba8().save(&save_path)`). -/
inductive JpegWritten where
  | cachedBytes (b : List Nat)
  | encodedImage (img : DynImage)
deriving Repr, DecidableEq

/-- src/backend/jpeg/mod.rs:85-103, `JpegImage::save`. -/
def JpegImage.save (isDir : FsPath → Bool) (st : JpegImage)
    (path : Option FsPath) : Except RusimgError (JpegImage × JpegWritten) :=
  match get_save_filepath isDir st.filepath_input path st.extension_str with
  | Except.error e => Except.error e
  | Except.ok save_path =>
    match st.image_bytes with
    | none =>
      Except.ok
        ({ st with metadata_output := some (), filepath_output := some save_path },
         JpegWritten.encodedImage (imToRgba8 st.image))
    | some b =>
      Except.ok
        ({ st with metadata_output := some (), filepath_output := some save_path },
         JpegWritten.cachedBytes b)

/-- src/backend/jpeg/mod.rs:107-123, `JpegImage::compress` (success path).
`mozjpeg` is the external encoder applied to the live pixels, the stored
size and the requested (or default 75.0) quality; embedded as total because
every claim concerns successful compress calls. -/
def JpegImage.compress (mozjpeg : Pix → Nat → Nat → ℚ → List Nat)
    (st : JpegImage) (quality : Option ℚ) : JpegImage :=
  let q := quality.getD 75
  { st with
    image_bytes := some (mozjpeg st.image.pix st.size.width st.size.height q)
    operations_count := st.operations_count + 1 }

/-- src/backend/jpeg/mod.rs:127-138, `JpegImage::resize` (the ratio is `u8`
in this backend's signature; the arithmetic is the same). -/
def JpegImage.resize (st : JpegImage) (resize_ratio : ℚ) :
    Except RusimgError (ImgSize × JpegImage) :=
  let nwidth := ratioScale st.size.width resize_ratio
  let nheight := ratioScale st.size.height resize_ratio
  Except.ok
    (ImgSize.new nwidth nheight,
     { st with
       image := imResize st.image nwidth nheight
       size := { width := nwidth, height := nheight }
       operations_count := st.operations_count + 1 })

/-- src/backend/jpeg/mod.rs:142-162, `JpegImage::trim`.  Note:
`operations_count` is not touched. -/
def JpegImage.trim (st : JpegImage) (trim : Rect) :
    Except RusimgError (ImgSize × JpegImage) :=
  match trimCore st.size.width st.size.height trim with
  | Except.error e => Except.error e
  | Except.ok (w, h) =>
    Except.ok
      (ImgSize.new w h,
       { st with
         image := imCrop st.image trim.x trim.y w h
         size := { width := w, height := h } })

/-- src/backend/jpeg/mod.rs:165-168, `JpegImage::grayscale`. -/
def JpegImage.grayscale (st : JpegImage) : JpegImage :=
  { st with
    image := imGray st.image
    operations_count := st.operations_count + 1 }

/-- src/backend/jpeg/mod.rs:171-175, `JpegImage::set_dynamic_image`.  The
alpha channel is stripped; `size` is left as it was. -/
def JpegImage.set_dynamic_image (st : JpegImage) (image : DynImage) :
    Except RusimgError JpegImage :=
  Except.ok { st with image := jpegRemoveAlpha image }

/-- src/backend/jpeg/mod.rs:203-205, `JpegImage::get_size`. -/
def JpegImage.get_size (st : JpegImage) : Except RusimgError ImgSize :=
  Except.ok st.size

/-! ## The Webp backend (src/backend/webp/mod.rs) -/

/-- src/backend/webp/mod.rs:9-21, `WebpImage`.  `image_bytes` retains the raw
source file bytes when the backend was opened from a file; `required_quality`
is the pending lazy compression request. -/
structure WebpImage where
  image : DynImage
  image_bytes : Option (List Nat)
  width : Nat
  height : Nat
  operations_count : Nat
  required_quality : Option ℚ
  metadata_input : Option Unit
  metadata_output : Option Unit
  filepath_input : Option FsPath
  filepath_output : Option FsPath
deriving Repr, DecidableEq

/-- src/backend/webp/mod.rs:25-41, `WebpImage::import`.  Note
`image_bytes := none`: an imported (converted) webp document retains no
source bytes. -/
def WebpImage.import (image : Option DynImage) (source_path : Option FsPath)
    (source_metadata : Option Unit) : Except RusimgError WebpImage :=
  match image with
  | none => Except.error RusimgError.ImageNotSpecified
  | some image =>
    Except.ok
      { image := image
        image_bytes := none
        width := image.w
        height := image.h
        operations_count := 0
        required_quality := none
        metadata_input := source_metadata
        metadata_output := none
        filepath_input := source_path
        filepath_output := none }

/-- src/backend/webp/mod.rs:44-70, `WebpImage::open`.  `webpDec` is the
external `webp::Decoder` (dimensions of the decoded image, or `none` on
decode failure).  Note `image_bytes := some image_buf`: the raw source bytes
are retained for the save-time passthrough. -/
def WebpImage.open (webpDec : List Nat → Option (Nat × Nat))
    (path : Option FsPath) (image_buf : Option (List Nat))
    (metadata : Option Unit) : Except RusimgError WebpImage :=
  match path with
  | none => Except.error RusimgError.ImageNotSpecified
  | some path =>
    match image_buf with
    | none => Except.error RusimgError.ImageNotSpecified
    | some image_buf =>
      match metadata with
      | none => Except.error RusimgError.ImageNotSpecified
      | some metadata =>
        match webpDec image_buf with
        | none => Except.error RusimgError.FailedToDecodeWebp
        | some (w, h) =>
          Except.ok
            { image := ⟨Pix.fromBytes image_buf, w, h⟩
              image_bytes := some image_buf
              width := w
              height := h
              operations_count := 0
              required_quality := none
              metadata_input := some metadata
              metadata_output := none
              filepath_input := some path
              filepath_output := none }

/-- What `WebpImage::save` writes: either the retained source bytes verbatim
(the passthrough short-circuit) or the webp encoding of
`self.image.to_rgba8()` at the chosen quality. -/
inductive WebpWritten where
  | passthroughBytes (b : List Nat)
  | encoded (img : DynImage) (quality : ℚ)
deriving Repr, DecidableEq

/-- The `source_is_webp` test of src/backend/webp/mod.rs:77-81: the *input
path's extension string* equals `"webp"` (not the sniffed format). -/
def webpSourceIsWebp (st : WebpImage) : Bool :=
  match st.filepath_input with
  | some filepath_input => fsExtensionStr filepath_input == "webp"
  | none => false

/-- src/backend/webp/mod.rs:73-110, `WebpImage::save`.  Passthrough requires
the extension test, `operations_count == 0` and retained source bytes; any
other state re-encodes at `required_quality` (default 75.0). -/
def WebpImage.save (isDir : FsPath → Bool) (st : WebpImage)
    (path : Option FsPath) : Except RusimgError (WebpImage × WebpWritten) :=
  match get_save_filepath isDir st.filepath_input path "webp" with
  | Except.error e => Except.error e
  | Except.ok save_path =>
    match st.image_bytes, webpSourceIsWebp st && (st.operations_count == 0) with
    | some b, true =>
      Except.ok
        ({ st with metadata_output := some (), filepath_output := some save_path },
         WebpWritten.passthroughBytes b)
    | _, _ =>
      let quality := match st.required_quality with
        | some q => q
        | none => 75
      Except.ok
        ({ st with metadata_output := some (), filepath_output := some save_path },
         WebpWritten.encoded (imToRgba8 st.image) quality)

/-- src/backend/webp/mod.rs:116-121, `WebpImage::compress`: records the
quality *as passed* (a later `compress(None)` resets it) and increments the
counter; always succeeds. -/
def WebpImage.compress (st : WebpImage) (quality : Option ℚ) : WebpImage :=
  { st with
    required_quality := quality
    operations_count := st.operations_count + 1 }

/-- src/backend/webp/mod.rs:124-135, `WebpImage::resize`. -/
def WebpImage.resize (st : WebpImage) (resize_ratio : ℚ) :
    Except RusimgError (ImgSize × WebpImage) :=
  let nwidth := ratioScale st.width resize_ratio
  let nheight := ratioScale st.height resize_ratio
  Except.ok
    (ImgSize.new nwidth nheight,
     { st with
       image := imResize st.image nwidth nheight
       width := nwidth
       height := nheight
       operations_count := st.operations_count + 1 })

/-- src/backend/webp/mod.rs:139-158, `WebpImage::trim`.  Note:
`operations_count` is not touched. -/
def WebpImage.trim (st : WebpImage) (trim : Rect) :
    Except RusimgError (ImgSize × WebpImage) :=
  match trimCore st.width st.height trim with
  | Except.error e => Except.error e
  | Except.ok (w, h) =>
    Except.ok
      (ImgSize.new w h,
       { st with
         image := imCrop st.image trim.x trim.y w h
         width := w
         height := h })

/-- src/backend/webp/mod.rs:161-164, `WebpImage::grayscale`. -/
def WebpImage.grayscale (st : WebpImage) : WebpImage :=
  { st with
    image := imGray st.image
    operations_count := st.operations_count + 1 }

/-- src/backend/webp/mod.rs:167-170, `WebpImage::set_dynamic_image`. -/
def WebpImage.set_dynamic_image (st : WebpImage) (image : DynImage) :
    Except RusimgError WebpImage :=
  Except.ok { st with image := image }

/-- src/backend/webp/mod.rs:198-200, `WebpImage::get_size`. -/
def WebpImage.get_size (st : WebpImage) : Except RusimgError ImgSize :=
  Except.ok (ImgSize.new st.width st.height)

/-! ## The Empty backend (src/backend/empty/mod.rs) -/

/-- src/backend/empty/mod.rs:8-13, `EmptyImage`: both the pixel buffer and
the size are optional, and there is no operation counter, no cached bytes
and no metadata/destination fields. -/
structure EmptyImage where
  image : Option DynImage
  size : Option ImgSize
  source_path : Option FsPath
deriving Repr, DecidableEq

/-- src/backend/empty/mod.rs:17-33, `EmptyImage::import`: always succeeds,
with or without pixels. -/
def EmptyImage.import (image : Option DynImage) (source_path : Option FsPath)
    (_source_metadata : Option Unit) : Except RusimgError EmptyImage :=
  match image with
  | some image =>
    Except.ok
      { image := some image
        size := some { width := image.w, height := image.h }
        source_path := source_path }
  | none =>
    Except.ok
      { image := none
        size := none
        source_path := source_path }

/-- src/backend/empty/mod.rs:36-39, `EmptyImage::open`. -/
def EmptyImage.open (_path : Option FsPath) (_image_buf : Option (List Nat))
    (_metadata : Option Unit) : Except RusimgError EmptyImage :=
  Except.error RusimgError.UnsupportedFeature

/-- src/backend/empty/mod.rs:42-46, `EmptyImage::save`. -/
def EmptyImage.save (_st : EmptyImage) (_path : Option FsPath) :
    Except RusimgError EmptyImage :=
  Except.error RusimgError.UnsupportedFeature

/-- src/backend/empty/mod.rs:49-51, `EmptyImage::compress`. -/
def EmptyImage.compress (_st : EmptyImage) (_quality : Option ℚ) :
    Except RusimgError EmptyImage :=
  Except.error RusimgError.ImageFormatCannotBeCompressed

/-- src/backend/empty/mod.rs:55-72, `EmptyImage::resize`.  The source writes
the new dimensions onto `self.size.unwrap()` — a *temporary copy* of the
`Copy` struct — so the stored `size` field is never updated, and the value
returned is the old `self.size.unwrap()`. -/
def EmptyImage.resize (st : EmptyImage) (resize_ratio : ℚ) :
    Except RusimgError (ImgSize × EmptyImage) :=
  match st.image with
  | none => Except.error RusimgError.ImageNotSpecified
  | some image =>
    match st.size with
    | none => Except.error RusimgError.ImageNotSpecified
    | some sz =>
      let nwidth := ratioScale sz.width resize_ratio
      let nheight := ratioScale sz.height resize_ratio
      Except.ok
        (sz, { st with image := some (imResize image nwidth nheight) })

/-- src/backend/empty/mod.rs:76-102, `EmptyImage::trim` (this one *does*
store the new size, via `self.size = Some(...)`). -/
def EmptyImage.trim (st : EmptyImage) (trim : Rect) :
    Except RusimgError (ImgSize × EmptyImage) :=
  match st.image with
  | none => Except.error RusimgError.ImageNotSpecified
  | some image =>
    match st.size with
    | none => Except.error RusimgError.ImageNotSpecified
    | some sz =>
      match trimCore sz.width sz.height trim with
      | Except.error e => Except.error e
      | Except.ok (w, h) =>
        Except.ok
          ({ width := w, height := h },
           { st with
             image := some (imCrop image trim.x trim.y w h)
             size := some { width := w, height := h } })

/-- src/backend/empty/mod.rs:105-107, `EmptyImage::grayscale`:
`self.image.clone().unwrap().grayscale()` — the `unwrap()` panics when the
image is absent; the panic is embedded as `none`. -/
def EmptyImage.grayscale (st : EmptyImage) : Option EmptyImage :=
  match st.image with
  | none => none
  | some image => some { st with image := some (imGray image) }

/-- src/backend/empty/mod.rs:110-113, `EmptyImage::set_dynamic_image`. -/
def EmptyImage.set_dynamic_image (st : EmptyImage) (image : DynImage) :
    Except RusimgError EmptyImage :=
  Except.ok { st with image := some image }

/-- src/backend/empty/mod.rs:141-146, `EmptyImage::get_size`. -/
def EmptyImage.get_size (st : EmptyImage) : Except RusimgError ImgSize :=
  match st.size with
  | none => Except.error RusimgError.ImageNotSpecified
  | some sz => Except.ok sz

/-! ## The Bmp backend stub and the dispatcher (src/backend.rs) -/

/-- Modelled from the spec: the Bmp backend.  `src/backend/bmp/mod.rs` is
feature-gated (`#[cfg(feature="bmp")]`) and not present under src/; per spec
§4.4 a Bmp backend holds the decoded pixel buffer, always encodes it at save
time and rejects compression.  Only `open` is needed by the dispatcher. -/
structure BmpImage where
  image : DynImage
  width : Nat
  height : Nat
  metadata_input : Option Unit
  filepath_input : Option FsPath
deriving Repr, DecidableEq

/-- Modelled from the spec: `BmpImage::open` decodes the byte buffer with the
`image` crate, like the png/jpeg backends. -/
def BmpImage.open (loadMem : List Nat → Except String (Nat × Nat))
    (path : Option FsPath) (image_buf : Option (List Nat))
    (metadata : Option Unit) : Except RusimgError BmpImage :=
  match path with
  | none => Except.error RusimgError.ImageNotSpecified
  | some path =>
    match image_buf with
    | none => Except.error RusimgError.ImageNotSpecified
    | some image_buf =>
      match metadata with
      | none => Except.error RusimgError.ImageNotSpecified
      | some metadata =>
        match loadMem image_buf with
        | Except.error e => Except.error (RusimgError.FailedToOpenImage e)
        | Except.ok (w, h) =>
          Except.ok
            { image := ⟨Pix.fromBytes image_buf, w, h⟩
              width := w
              height := h
              metadata_input := some metadata
              filepath_input := some path }

/-- The format classification returned by `image::guess_format`
(src/backend.rs:174-177); only the four variants the dispatcher matches on
are distinguished, everything else is `otherFmt`. -/
inductive ImageFormat where
  | bmpFmt
  | jpegFmt
  | pngFmt
  | webpFmt
  | otherFmt
deriving Repr, DecidableEq

/-- The external decode services used at open time: the magic-byte sniffer
and the two decoders. -/
structure DecodeSvc where
  guessFmt : List Nat → Except String ImageFormat
  loadMem : List Nat → Except String (Nat × Nat)
  webpDec : List Nat → Option (Nat × Nat)

/-- The active backend held by a `RusImg` document (the source uses a
`Box<dyn BackendTrait>` trait object; a closed sum is the shallow
embedding of it). -/
inductive Backend where
  | bmpB (st : BmpImage)
  | jpegB (st : JpegImage)
  | pngB (st : PngImage)
  | webpB (st : WebpImage)
  | emptyB (st : EmptyImage)
deriving Repr, DecidableEq

/-- src/lib.rs:15-18, `RusImg`: format tag plus active backend. -/
structure RusImg where
  extension : Extension
  data : Backend
deriving Repr, DecidableEq

/-- src/backend.rs:183-187, `open_bmp_image` (with the `bmp` feature
enabled). -/
def open_bmp_image (svc : DecodeSvc) (path : FsPath) (buf : List Nat)
    (metadata_input : Unit) : Except RusimgError RusImg :=
  match BmpImage.open svc.loadMem (some path) (some buf) (some metadata_input) with
  | Except.error e => Except.error e
  | Except.ok st => Except.ok { extension := Extension.Bmp, data := Backend.bmpB st }

/-- src/backend.rs:196-200, `open_jpeg_image`. -/
def open_jpeg_image (svc : DecodeSvc) (path : FsPath) (buf : List Nat)
    (metadata_input : Unit) : Except RusimgError RusImg :=
  match JpegImage.open svc.loadMem (some path) (some buf) (some metadata_input) with
  | Except.error e => Except.error e
  | Except.ok st => Except.ok { extension := Extension.Jpeg, data := Backend.jpegB st }

/-- src/backend.rs:209-213, `open_png_image`. -/
def open_png_image (svc : DecodeSvc) (path : FsPath) (buf : List Nat)
    (metadata_input : Unit) : Except RusimgError RusImg :=
  match PngImage.open svc.loadMem (some path) (some buf) (some metadata_input) with
  | Except.error e => Except.error e
  | Except.ok st => Except.ok { extension := Extension.Png, data := Backend.pngB st }

/-- src/backend.rs:222-226, `open_webp_image`. -/
def open_webp_image (svc : DecodeSvc) (path : FsPath) (buf : List Nat)
    (metadata_input : Unit) : Except RusimgError RusImg :=
  match WebpImage.open svc.webpDec (some path) (some buf) (some metadata_input) with
  | Except.error e => Except.error e
  | Except.ok st => Except.ok { extension := Extension.Webp, data := Backend.webpB st }

/-- src/backend.rs:233-254, `open_image` (= `RusImg::open`, src/lib.rs:26-28).
`readFile` is the file system (file contents at a path, `none` when the file
cannot be opened); `ioMsg` is the operating-system diagnostic attached to the
failure.  A missing file yields `FailedToOpenFile` — the function never
constructs an Empty backend (`EmptyImage` is not referenced by src/backend.rs
at all, and `Extension` has no Empty variant). -/
def open_image (readFile : FsPath → Option (List Nat)) (ioMsg : String)
    (svc : DecodeSvc) (path : FsPath) : Except RusimgError RusImg :=
  match readFile path with
  | none => Except.error (RusimgError.FailedToOpenFile ioMsg)
  | some buf =>
    match svc.guessFmt buf with
    | Except.error e => Except.error (RusimgError.FailedToOpenImage e)
    | Except.ok ImageFormat.bmpFmt => open_bmp_image svc path buf ()
    | Except.ok ImageFormat.jpegFmt => open_jpeg_image svc path buf ()
    | Except.ok ImageFormat.pngFmt => open_png_image svc path buf ()
    | Except.ok ImageFormat.webpFmt => open_webp_image svc path buf ()
    | Except.ok ImageFormat.otherFmt => Except.error RusimgError.UnsupportedFileExtension

/-! ## The Document facade (src/lib.rs)

The facade methods whose claims are about the *facade's own* argument
validation are embedded with the backend call abstracted as a function
parameter: the validation provably happens before, and independently of,
whatever the backend would do. -/

/-- src/lib.rs:60-67, `RusImg::resize`: the facade rejects `ratio <= 0.0`
with `InvalidResizeRatio` before delegating; otherwise it returns whatever
the active backend's `resize` returns. -/
def rusimgResize (backendResize : ℚ → Except RusimgError ImgSize)
    (ratio : ℚ) : Except RusimgError ImgSize :=
  if ratio ≤ 0 then Except.error RusimgError.InvalidResizeRatio
  else backendResize ratio

/-- src/lib.rs:97-104, `RusImg::compress`: the facade rejects a supplied
quality outside `[0, 100]` with `InvalidCompressionLevel`
(`quality.is_some() && (q < 0.0 || q > 100.0)`) before delegating. -/
def rusimgCompress (backendCompress : Option ℚ → Except RusimgError Unit)
    (quality : Option ℚ) : Except RusimgError Unit :=
  match quality with
  | some q =>
    if q < 0 ∨ 100 < q then Except.error RusimgError.InvalidCompressionLevel
    else backendCompress (some q)
  | none => backendCompress none

/-- src/lib.rs:88-91, `RusImg::grayscale` for a document whose active backend
is the Empty one: `self.data.grayscale()` then `Ok(())`.  The backend's
panic (absent image) propagates, embedded as `none`. -/
def rusimgGrayscaleEmpty (st : EmptyImage) : Option (Except RusimgError EmptyImage) :=
  match EmptyImage.grayscale st with
  | none => none
  | some st2 => some (Except.ok st2)

/-! ## Edit sequences and compress sequences

Derived combinators used to state the operation-counter and last-call-wins
claims over arbitrary sequences of the source's operations. -/

/-- One mutating edit of the capability contract (spec §4.1): resize, trim,
grayscale or compress. -/
inductive EditOp where
  | resizeOp (ratio : ℚ)
  | trimOp (r : Rect)
  | grayOp
  | compressOp (q : Option ℚ)
deriving Repr, DecidableEq

/-- Apply one edit to a Webp backend, as `RusImg` would route it. -/
def WebpImage.applyOp (st : WebpImage) : EditOp → Except RusimgError WebpImage
  | EditOp.resizeOp ratio => (st.resize ratio).map Prod.snd
  | EditOp.trimOp r => (st.trim r).map Prod.snd
  | EditOp.grayOp => Except.ok st.grayscale
  | EditOp.compressOp q => Except.ok (st.compress q)

/-- Apply a sequence of edits to a Webp backend, stopping at the first
error (as a caller propagating `?` would). -/
def WebpImage.applyOps (st : WebpImage) : List EditOp → Except RusimgError WebpImage
  | [] => Except.ok st
  | op :: ops =>
    match st.applyOp op with
    | Except.error e => Except.error e
    | Except.ok st2 => st2.applyOps ops

/-- The edits of a sequence that the source actually counts: resize,
grayscale and compress — `trim` increments no counter in any backend. -/
def countedEdits (ops : List EditOp) : Nat :=
  ops.countP (fun op =>
    match op with
    | EditOp.trimOp _ => false
    | _ => true)

/-- A sequence of `compress` calls on a Webp backend. -/
def WebpImage.compressSeq (st : WebpImage) (qs : List (Option ℚ)) : WebpImage :=
  qs.foldl WebpImage.compress st

/-- A sequence of `compress` calls on a Png backend. -/
def PngImage.compressSeq (oxipng : List Nat → Nat → List Nat) (st : PngImage)
    (qs : List (Option ℚ)) : PngImage :=
  qs.foldl (PngImage.compress oxipng) st

/-- A sequence of `compress` calls on a Jpeg backend. -/
def JpegImage.compressSeq (mozjpeg : Pix → Nat → Nat → ℚ → List Nat)
    (st : JpegImage) (qs : List (Option ℚ)) : JpegImage :=
  qs.foldl (JpegImage.compress mozjpeg) st

/-! ## Concrete sample states

Reachable states and sample services used by the counterexamples and the
witnesses below. -/

/-- A 100×100 Png backend as produced by `PngImage::open`. -/
def pngSample100 : PngImage :=
  { binary_data := [1]
    image := ⟨Pix.fromBytes [1], 100, 100⟩
    image_bytes := none
    width := 100
    height := 100
    operations_count := 0
    metadata_input := some ()
    metadata_output := none
    filepath_input := some [⟨"img", some "png"⟩]
    filepath_output := none }

/-- A 100×100 Jpeg backend as produced by `JpegImage::open`. -/
def jpegSample100 : JpegImage :=
  { image := jpegRemoveAlpha ⟨Pix.fromBytes [2], 100, 100⟩
    image_bytes := none
    size := ⟨100, 100⟩
    operations_count := 0
    extension_str := "jpg"
    metadata_input := some ()
    metadata_output := none
    filepath_input := some [⟨"img", some "jpg"⟩]
    filepath_output := none }

/-- A 100×100 Webp backend as produced by `WebpImage::open` on the file
`img.webp` with contents `[7, 7]`. -/
def webpStSample : WebpImage :=
  { image := ⟨Pix.fromBytes [7, 7], 100, 100⟩
    image_bytes := some [7, 7]
    width := 100
    height := 100
    operations_count := 0
    required_quality := none
    metadata_input := some ()
    metadata_output := none
    filepath_input := some [⟨"img", some "webp"⟩]
    filepath_output := none }

/-- `webpStSample` after a successful save to its own resolved path. -/
def webpStSampleSaved : WebpImage :=
  { webpStSample with
    metadata_output := some ()
    filepath_output := some [⟨"img", some "webp"⟩] }

/-- Extract the success value of an `Except`, with an explicit fallback. -/
def exceptOkD {α : Type} (d : α) : Except RusimgError α → α
  | Except.ok a => a
  | Except.error _ => d

/-- A sample edit sequence: grayscale, trim, compress (two counted edits,
one uncounted trim). -/
def c3OpsSample : List EditOp :=
  [EditOp.grayOp, EditOp.trimOp ⟨0, 0, 10, 10⟩, EditOp.compressOp none]

/-- The state reached from `webpStSample` by `c3OpsSample`. -/
def webpC3St : WebpImage :=
  exceptOkD webpStSample (WebpImage.applyOps webpStSample c3OpsSample)

/-- A directory path used as a save destination. -/
def dirSample : FsPath :=
  [⟨"out", none⟩]

/-- A source file path `img.png`. -/
def srcSample : FsPath :=
  [⟨"img", some "png"⟩]

/-- A non-directory destination path. -/
def destFileSample : FsPath :=
  [⟨"saved", some "png"⟩]

/-- Decode services for the dispatcher that never recognize anything (their
behaviour is irrelevant when the file cannot even be opened). -/
def svcNone : DecodeSvc :=
  { guessFmt := fun _ => Except.error "unknown format"
    loadMem := fun _ => Except.error "no decoder"
    webpDec := fun _ => none }

/-- A sample oxipng service for witnesses. -/
def oxipngSample : List Nat → Nat → List Nat :=
  fun b level => level :: b

/-- A sample mozjpeg service for witnesses. -/
def mozjpegSample : Pix → Nat → Nat → ℚ → List Nat :=
  fun _ _ _ _ => [9]

/-! ## Helper lemmas: the trim-size computation -/

/-- When the requested rect fits (no `u32` overflow in the sums), trim keeps
the requested width/height. -/
theorem trimCore_inside (W H : Nat) (r : Rect) (hx : r.x + r.w < U32)
    (hy : r.y + r.h < U32) (h1 : r.x + r.w ≤ W) (h2 : r.y + r.h ≤ H) :
    trimCore W H r = Except.ok (r.w, r.h) := by
  unfold trimCore
  rw [Nat.mod_eq_of_lt hx, Nat.mod_eq_of_lt hy]
  rw [if_neg]
  omega

/-- When the extent overflows the bounds but the origin is strictly inside,
trim clamps to the available area. -/
theorem trimCore_clamp (W H : Nat) (r : Rect) (hx : r.x + r.w < U32)
    (hy : r.y + r.h < U32) (hov : W < r.x + r.w ∨ H < r.y + r.h)
    (hox : r.x < W) (hoy : r.y < H) :
    trimCore W H r = Except.ok (min r.w (W - r.x), min r.h (H - r.y)) := by
  unfold trimCore
  rw [Nat.mod_eq_of_lt hx, Nat.mod_eq_of_lt hy]
  rw [if_pos hov, if_pos (And.intro hox hoy)]
  have hwc : (if W < r.x + r.w then (W % U32 + (U32 - r.x % U32)) % U32 else r.w)
      = min r.w (W - r.x) := by
    by_cases h : W < r.x + r.w
    · rw [if_pos h]
      have hW : W < U32 := lt_trans h hx
      have hxlt : r.x < U32 := by omega
      rw [Nat.mod_eq_of_lt hW, Nat.mod_eq_of_lt hxlt]
      have h2 : W % U32 = W := Nat.mod_eq_of_lt hW
      have hrw : W + (U32 - r.x) = (W - r.x) + U32 := by omega
      rw [hrw, Nat.add_mod_right, Nat.mod_eq_of_lt (by omega : W - r.x < U32)]
      omega
    · rw [if_neg h]
      omega
  have hhc : (if H < r.y + r.h then (H % U32 + (U32 - r.y % U32)) % U32 else r.h)
      = min r.h (H - r.y) := by
    by_cases h : H < r.y + r.h
    · rw [if_pos h]
      have hH : H < U32 := lt_trans h hy
      have hylt : r.y < U32 := by omega
      rw [Nat.mod_eq_of_lt hH, Nat.mod_eq_of_lt hylt]
      have hrw : H + (U32 - r.y) = (H - r.y) + U32 := by omega
      rw [hrw, Nat.add_mod_right, Nat.mod_eq_of_lt (by omega : H - r.y < U32)]
      omega
    · rw [if_neg h]
      omega
  rw [hwc, hhc]

/-- When the extent overflows the bounds and the origin is not strictly
inside, trim fails with `InvalidTrimXY`. -/
theorem trimCore_outside (W H : Nat) (r : Rect) (hx : r.x + r.w < U32)
    (hy : r.y + r.h < U32) (hov : W < r.x + r.w ∨ H < r.y + r.h)
    (ho : ¬(r.x < W ∧ r.y < H)) :
    trimCore W H r = Except.error RusimgError.InvalidTrimXY := by
  unfold trimCore
  rw [Nat.mod_eq_of_lt hx, Nat.mod_eq_of_lt hy]
  rw [if_pos hov, if_neg ho]

/-- Lift a successful `trimCore` to `PngImage::trim`'s returned size. -/
theorem pngTrim_fst (p : PngImage) (r : Rect) (w h : Nat)
    (hc : trimCore p.width p.height r = Except.ok (w, h)) :
    (PngImage.trim p r).map Prod.fst = Except.ok (ImgSize.new w h) := by
  unfold PngImage.trim
  rw [hc]
  rfl

/-- Lift a failing `trimCore` to `PngImage::trim`. -/
theorem pngTrim_err (p : PngImage) (r : Rect) (e : RusimgError)
    (hc : trimCore p.width p.height r = Except.error e) :
    PngImage.trim p r = Except.error e := by
  unfold PngImage.trim
  rw [hc]

/-- Lift a successful `trimCore` to `JpegImage::trim`'s returned size. -/
theorem jpegTrim_fst (j : JpegImage) (r : Rect) (w h : Nat)
    (hc : trimCore j.size.width j.size.height r = Except.ok (w, h)) :
    (JpegImage.trim j r).map Prod.fst = Except.ok (ImgSize.new w h) := by
  unfold JpegImage.trim
  rw [hc]
  rfl

/-- Lift a failing `trimCore` to `JpegImage::trim`. -/
theorem jpegTrim_err (j : JpegImage) (r : Rect) (e : RusimgError)
    (hc : trimCore j.size.width j.size.height r = Except.error e) :
    JpegImage.trim j r = Except.error e := by
  unfold JpegImage.trim
  rw [hc]

/-! ## Claim C1: trim bounds handling -/

/-- C1, counterexample.  The claim states that trim *fails with
InvalidTrimXY whenever the origin is outside the image bounds*.  On a
100×100 image, the rect `{x: 100, y: 0, w: 0, h: 50}` has its origin outside
the bounds (`x = 100` is not strictly inside), yet `trim` succeeds and
returns `{0, 50}`: the source only reaches the origin check when the extent
overflows (`W < x + w || H < y + h`), and here `x + w = 100 ≤ W`. -/
theorem c1_trim_counterexample :
    (PngImage.trim pngSample100 ⟨100, 0, 0, 50⟩).map Prod.fst =
      Except.ok (ImgSize.new 0 50) ∧
    decide ((100 : Nat) < 100) = false := by
  constructor
  · rfl
  · rfl

/-- C1 (amended): for the Png and Jpeg backends, provided the `u32` sums
`x + w` and `y + h` do not overflow (they are taken mod 2^32 otherwise):
if `x + w ≤ W` and `y + h ≤ H` the trim succeeds with exactly `{w, h}`;
if the extent overflows the bounds and the origin is strictly inside, it
succeeds with the clamped size `{min(w, W−x), min(h, H−y)}`; if the extent
overflows the bounds and the origin is *not* strictly inside, it fails with
`InvalidTrimXY`.  (The origin check is only reached when the extent
overflows — see the counterexample.) -/
theorem c1_trim_edge_correction (p : PngImage) (j : JpegImage) (r : Rect)
    (hx : r.x + r.w < U32) (hy : r.y + r.h < U32) :
    ((r.x + r.w ≤ p.width → r.y + r.h ≤ p.height →
        (PngImage.trim p r).map Prod.fst = Except.ok (ImgSize.new r.w r.h)) ∧
     (p.width < r.x + r.w ∨ p.height < r.y + r.h →
        r.x < p.width → r.y < p.height →
        (PngImage.trim p r).map Prod.fst =
          Except.ok (ImgSize.new (min r.w (p.width - r.x)) (min r.h (p.height - r.y)))) ∧
     (p.width < r.x + r.w ∨ p.height < r.y + r.h →
        ¬(r.x < p.width ∧ r.y < p.height) →
        PngImage.trim p r = Except.error RusimgError.InvalidTrimXY)) ∧
    ((r.x + r.w ≤ j.size.width → r.y + r.h ≤ j.size.height →
        (JpegImage.trim j r).map Prod.fst = Except.ok (ImgSize.new r.w r.h)) ∧
     (j.size.width < r.x + r.w ∨ j.size.height < r.y + r.h →
        r.x < j.size.width → r.y < j.size.height →
        (JpegImage.trim j r).map Prod.fst =
          Except.ok (ImgSize.new (min r.w (j.size.width - r.x))
            (min r.h (j.size.height - r.y)))) ∧
     (j.size.width < r.x + r.w ∨ j.size.height < r.y + r.h →
        ¬(r.x < j.size.width ∧ r.y < j.size.height) →
        JpegImage.trim j r = Except.error RusimgError.InvalidTrimXY)) := by
  refine ⟨⟨?_, ?_, ?_⟩, ?_, ?_, ?_⟩
  · intro h1 h2
    exact pngTrim_fst p r r.w r.h (trimCore_inside _ _ _ hx hy h1 h2)
  · intro hov hox hoy
    exact pngTrim_fst p r _ _ (trimCore_clamp _ _ _ hx hy hov hox hoy)
  · intro hov ho
    exact pngTrim_err p r _ (trimCore_outside _ _ _ hx hy hov ho)
  · intro h1 h2
    exact jpegTrim_fst j r r.w r.h (trimCore_inside _ _ _ hx hy h1 h2)
  · intro hov hox hoy
    exact jpegTrim_fst j r _ _ (trimCore_clamp _ _ _ hx hy hov hox hoy)
  · intro hov ho
    exact jpegTrim_err j r _ (trimCore_outside _ _ _ hx hy hov ho)

/-- C1 witness: the clamped case at a concrete input — the spec's own
example, image 100×100, `trim(x=10, y=10, w=200, h=200)` → size 90×90. -/
theorem c1_trim_edge_correction_witness :
    (PngImage.trim pngSample100 ⟨10, 10, 200, 200⟩).map Prod.fst =
      Except.ok (ImgSize.new (min 200 (pngSample100.width - 10))
        (min 200 (pngSample100.height - 10))) :=
  (c1_trim_edge_correction pngSample100 jpegSample100 ⟨10, 10, 200, 200⟩
      (by decide) (by decide)).1.2.1 (Or.inl (by decide)) (by decide) (by decide)

/-! ## Helper lemmas: `WebpImage::save` branches -/

/-- The passthrough branch: extension test passes, zero counter, retained
bytes. -/
theorem webpSave_pass (isDir : FsPath → Bool) (st : WebpImage)
    (path : Option FsPath) (save_path : FsPath) (b : List Nat)
    (hres : get_save_filepath isDir st.filepath_input path "webp" = Except.ok save_path)
    (hib : st.image_bytes = some b) (hsw : webpSourceIsWebp st = true)
    (hcnt : st.operations_count = 0) :
    WebpImage.save isDir st path =
      Except.ok
        ({ st with metadata_output := some (), filepath_output := some save_path },
         WebpWritten.passthroughBytes b) := by
  unfold WebpImage.save
  rw [hres, hib, hsw, hcnt]
  rfl

/-- The re-encode branch, reached whenever the counter is nonzero. -/
theorem webpSave_encode_of_cnt (isDir : FsPath → Bool) (st : WebpImage)
    (path : Option FsPath) (save_path : FsPath)
    (hres : get_save_filepath isDir st.filepath_input path "webp" = Except.ok save_path)
    (hcnt : st.operations_count ≠ 0) :
    WebpImage.save isDir st path =
      Except.ok
        ({ st with metadata_output := some (), filepath_output := some save_path },
         WebpWritten.encoded (imToRgba8 st.image)
           (match st.required_quality with | some q => q | none => 75)) := by
  unfold WebpImage.save
  rw [hres]
  have hb : (st.operations_count == 0) = false := by
    simp [hcnt]
  rw [hb, Bool.and_false]
  cases st.image_bytes <;> rfl

/-- The re-encode branch, reached whenever the extension test fails. -/
theorem webpSave_encode_of_not_webp (isDir : FsPath → Bool) (st : WebpImage)
    (path : Option FsPath) (save_path : FsPath)
    (hres : get_save_filepath isDir st.filepath_input path "webp" = Except.ok save_path)
    (hsw : webpSourceIsWebp st = false) :
    WebpImage.save isDir st path =
      Except.ok
        ({ st with metadata_output := some (), filepath_output := some save_path },
         WebpWritten.encoded (imToRgba8 st.image)
           (match st.required_quality with | some q => q | none => 75)) := by
  unfold WebpImage.save
  rw [hres, hsw, Bool.false_and]
  cases st.image_bytes <;> rfl

/-- The re-encode branch, reached whenever no source bytes were retained
(an imported/converted webp document). -/
theorem webpSave_encode_of_no_bytes (isDir : FsPath → Bool) (st : WebpImage)
    (path : Option FsPath) (save_path : FsPath)
    (hres : get_save_filepath isDir st.filepath_input path "webp" = Except.ok save_path)
    (hib : st.image_bytes = none) :
    WebpImage.save isDir st path =
      Except.ok
        ({ st with metadata_output := some (), filepath_output := some save_path },
         WebpWritten.encoded (imToRgba8 st.image)
           (match st.required_quality with | some q => q | none => 75)) := by
  unfold WebpImage.save
  rw [hres, hib]

/-! ## Claim C2: the Webp save passthrough -/

/-- C2, counterexample.  The claim states the passthrough happens *exactly
when* zero edit operations have occurred since open, and that in every other
case save re-encodes the live pixel buffer.  But `trim` is an edit that does
not touch `operations_count`: opening `img.webp` (contents `[7, 7]`,
100×100), trimming to 50×50, then saving still writes the *original* source
bytes verbatim — the trimmed pixels are discarded. -/
theorem c2_webp_passthrough_counterexample :
    ((WebpImage.trim webpStSample ⟨0, 0, 50, 50⟩).map Prod.snd).bind
        (fun st => (WebpImage.save (fun _ => false) st none).map Prod.snd) =
      Except.ok (WebpWritten.passthroughBytes [7, 7]) := by
  rfl

/-- C2 (amended): `WebpImage::save` writes the retained source bytes
verbatim exactly when (a) the *input path's extension string* is `"webp"`,
(b) the stored operation counter is zero — where the counter is incremented
by resize/grayscale/compress but *not* by trim — and (c) the raw source
bytes were retained (the backend was opened from a file; an
imported/converted document retains none).  In every other case save encodes
the live pixel buffer (as rgba8) at the stored quality, or 75.0 when none is
stored; and a passthrough stream is never equal to a re-encoded stream. -/
theorem c2_webp_passthrough_condition (isDir : FsPath → Bool) (st : WebpImage)
    (path : Option FsPath) :
    (∀ b, st.image_bytes = some b → webpSourceIsWebp st = true →
        st.operations_count = 0 →
        (WebpImage.save isDir st path).map Prod.snd =
          (get_save_filepath isDir st.filepath_input path "webp").map
            (fun _ => WebpWritten.passthroughBytes b)) ∧
    (webpSourceIsWebp st = false ∨ st.operations_count ≠ 0 ∨ st.image_bytes = none →
        (WebpImage.save isDir st path).map Prod.snd =
          (get_save_filepath isDir st.filepath_input path "webp").map
            (fun _ => WebpWritten.encoded (imToRgba8 st.image)
              (match st.required_quality with | some q => q | none => 75))) ∧
    (∀ b img q, WebpWritten.passthroughBytes b ≠ WebpWritten.encoded img q) := by
  refine ⟨?_, ?_, ?_⟩
  · intro b hib hsw hcnt
    cases hres : get_save_filepath isDir st.filepath_input path "webp" with
    | error e =>
      unfold WebpImage.save
      rw [hres]
      rfl
    | ok save_path =>
      rw [webpSave_pass isDir st path save_path b hres hib hsw hcnt]
      rfl
  · intro hcond
    cases hres : get_save_filepath isDir st.filepath_input path "webp" with
    | error e =>
      unfold WebpImage.save
      rw [hres]
      rfl
    | ok save_path =>
      rcases hcond with hsw | hcnt | hib
      · rw [webpSave_encode_of_not_webp isDir st path save_path hres hsw]
        rfl
      · rw [webpSave_encode_of_cnt isDir st path save_path hres hcnt]
        rfl
      · rw [webpSave_encode_of_no_bytes isDir st path save_path hres hib]
        rfl
  · intro b img q h
    exact WebpWritten.noConfusion h

/-- C2 witness: the zero-edit passthrough at a concrete opened state — the
claim's "opening a Webp file and saving immediately is byte-identical to the
source". -/
theorem c2_webp_passthrough_condition_witness :
    (WebpImage.save (fun _ => false) webpStSample none).map Prod.snd =
      (get_save_filepath (fun _ => false) webpStSample.filepath_input none "webp").map
        (fun _ => WebpWritten.passthroughBytes [7, 7]) :=
  (c2_webp_passthrough_condition (fun _ => false) webpStSample none).1
    [7, 7] rfl (by decide) rfl
/-! ## Claim C3: the operation counter -/

/-- `countedEdits` unfolded one step. -/
theorem countedEdits_cons (op : EditOp) (ops : List EditOp) :
    countedEdits (op :: ops) =
      countedEdits ops + (match op with | EditOp.trimOp _ => 0 | _ => 1) := by
  cases op <;> simp [countedEdits, List.countP_cons]

/-- C3, counterexample.  The claim states the counter is incremented by
*every* mutating edit, trim included.  On an opened 100×100 Webp backend a
successful 50×50 trim leaves the counter at 0, not 1 (the cited
`WebpImage::trim`, like the png/jpeg trims, never touches
`operations_count`). -/
theorem c3_counter_counterexample :
    (WebpImage.trim webpStSample ⟨0, 0, 50, 50⟩).map
        (fun pr => pr.2.operations_count) = Except.ok 0 ∧
    ((0 : Nat) == 1) = false := by
  constructor
  · rfl
  · rfl

/-- C3 (amended), for the cited Webp backend: the operation counter starts
at 0 at open and at import, and after any successful sequence of edits it
equals the number of resize, grayscale and compress edits applied — trim is
*not* counted (and the Empty backend has no counter at all).  This counter
is the value `WebpImage::save` compares with 0 to decide the passthrough. -/
theorem c3_operation_counter :
    (∀ dec p buf md st, WebpImage.open dec p buf md = Except.ok st →
        st.operations_count = 0) ∧
    (∀ img p md st, WebpImage.import img p md = Except.ok st →
        st.operations_count = 0) ∧
    (∀ st ops st2, WebpImage.applyOps st ops = Except.ok st2 →
        st2.operations_count = st.operations_count + countedEdits ops) := by
  refine ⟨?_, ?_, ?_⟩
  · intro dec p buf md st h
    unfold WebpImage.open at h
    repeat' split at h
    all_goals cases h
    rfl
  · intro img p md st h
    unfold WebpImage.import at h
    split at h
    all_goals cases h
    rfl
  · intro st ops st2 h
    induction ops generalizing st with
    | nil =>
      unfold WebpImage.applyOps at h
      cases h
      simp [countedEdits]
    | cons op ops ih =>
      unfold WebpImage.applyOps at h
      cases hop : WebpImage.applyOp st op with
      | error e =>
        rw [hop] at h
        cases h
      | ok stm =>
        rw [hop] at h
        have hrec := ih stm h
        rw [countedEdits_cons]
        cases op with
        | resizeOp ratio =>
          have hop2 : Except.map Prod.snd (WebpImage.resize st ratio) = Except.ok stm := hop
          unfold WebpImage.resize at hop2
          simp only [Except.map] at hop2
          cases hop2
          simp only at hrec
          show st2.operations_count = st.operations_count + (countedEdits ops + 1)
          omega
        | trimOp r =>
          have hop2 : Except.map Prod.snd (WebpImage.trim st r) = Except.ok stm := hop
          unfold WebpImage.trim at hop2
          cases htc : trimCore st.width st.height r with
          | error e =>
            rw [htc] at hop2
            cases hop2
          | ok wh =>
            rw [htc] at hop2
            cases wh with
            | mk w hh =>
              simp only [Except.map] at hop2
              cases hop2
              simp only at hrec
              show st2.operations_count = st.operations_count + (countedEdits ops + 0)
              omega
        | grayOp =>
          have hop2 : Except.ok (WebpImage.grayscale st) = Except.ok stm := hop
          unfold WebpImage.grayscale at hop2
          cases hop2
          simp only at hrec
          show st2.operations_count = st.operations_count + (countedEdits ops + 1)
          omega
        | compressOp q =>
          have hop2 : Except.ok (WebpImage.compress st q) = Except.ok stm := hop
          unfold WebpImage.compress at hop2
          cases hop2
          simp only at hrec
          show st2.operations_count = st.operations_count + (countedEdits ops + 1)
          omega

/-- C3 witness: grayscale, trim, compress on a concrete opened state leaves
the counter at 2 (the trim is uncounted). -/
theorem c3_operation_counter_witness :
    webpC3St.operations_count =
      webpStSample.operations_count + countedEdits c3OpsSample :=
  c3_operation_counter.2.2 webpStSample c3OpsSample webpC3St (by rfl)

/-! ## Claim C4: geometry / pixel-buffer lock-step -/

/-- C4, counterexample.  The claim requires that after *every* mutating
operation, set-pixels included, the stored geometry equals the pixel
buffer's dimensions.  But the cited `PngImage::set_dynamic_image`
(src/backend/png/mod.rs:187-190) replaces only the `image` field: setting a
50×50 image on a 100×100 backend leaves the stored width at 100 while the
buffer is 50 wide. -/
theorem c4_geometry_counterexample :
    (PngImage.set_dynamic_image pngSample100 ⟨Pix.given 1, 50, 50⟩).map
        (fun st => (st.width, st.image.w)) = Except.ok (100, 50) ∧
    ((100 : Nat) == 50) = false := by
  exact ⟨rfl, rfl⟩

/-- C4 (amended): the lock-step invariant holds after open, import, resize
and trim on the Png backend and after resize and trim on the Jpeg and Webp
backends (with the resize/crop services returning the requested dimensions,
per their spec §6 contracts) — but `set_dynamic_image` replaces the pixel
buffer while leaving the stored geometry untouched, and `EmptyImage::resize`
(which writes the new dimensions onto a temporary copy of its `Copy` size
struct) leaves the stored size unchanged and returns the *old* size. -/
theorem c4_geometry_lockstep :
    (∀ loadMem p buf md st, PngImage.open loadMem p buf md = Except.ok st →
        st.width = st.image.w ∧ st.height = st.image.h) ∧
    (∀ enc img p md st, PngImage.import enc img p md = Except.ok st →
        st.width = st.image.w ∧ st.height = st.image.h) ∧
    (∀ st ratio sz st2, PngImage.resize st ratio = Except.ok (sz, st2) →
        st2.width = st2.image.w ∧ st2.height = st2.image.h) ∧
    (∀ st r sz st2, PngImage.trim st r = Except.ok (sz, st2) →
        st2.width = st2.image.w ∧ st2.height = st2.image.h) ∧
    (∀ st img st2, PngImage.set_dynamic_image st img = Except.ok st2 →
        st2.width = st.width ∧ st2.height = st.height ∧ st2.image = img) ∧
    (∀ st ratio sz st2, JpegImage.resize st ratio = Except.ok (sz, st2) →
        st2.size.width = st2.image.w ∧ st2.size.height = st2.image.h) ∧
    (∀ st r sz st2, JpegImage.trim st r = Except.ok (sz, st2) →
        st2.size.width = st2.image.w ∧ st2.size.height = st2.image.h) ∧
    (∀ st ratio sz st2, WebpImage.resize st ratio = Except.ok (sz, st2) →
        st2.width = st2.image.w ∧ st2.height = st2.image.h) ∧
    (∀ st r sz st2, WebpImage.trim st r = Except.ok (sz, st2) →
        st2.width = st2.image.w ∧ st2.height = st2.image.h) ∧
    (∀ st ratio sz st2, EmptyImage.resize st ratio = Except.ok (sz, st2) →
        st2.size = st.size ∧ st.size = some sz) := by
  refine ⟨?_, ?_, ?_, ?_, ?_, ?_, ?_, ?_, ?_, ?_⟩
  · intro loadMem p buf md st h
    unfold PngImage.open at h
    repeat' split at h
    all_goals cases h
    exact ⟨rfl, rfl⟩
  · intro enc img p md st h
    unfold PngImage.import at h
    repeat' split at h
    all_goals cases h
    exact ⟨rfl, rfl⟩
  · intro st ratio sz st2 h
    unfold PngImage.resize at h
    cases h
    exact ⟨rfl, rfl⟩
  · intro st r sz st2 h
    unfold PngImage.trim at h
    repeat' split at h
    all_goals cases h
    exact ⟨rfl, rfl⟩
  · intro st img st2 h
    unfold PngImage.set_dynamic_image at h
    cases h
    exact ⟨rfl, rfl, rfl⟩
  · intro st ratio sz st2 h
    unfold JpegImage.resize at h
    cases h
    exact ⟨rfl, rfl⟩
  · intro st r sz st2 h
    unfold JpegImage.trim at h
    repeat' split at h
    all_goals cases h
    exact ⟨rfl, rfl⟩
  · intro st ratio sz st2 h
    unfold WebpImage.resize at h
    cases h
    exact ⟨rfl, rfl⟩
  · intro st r sz st2 h
    unfold WebpImage.trim at h
    repeat' split at h
    all_goals cases h
    exact ⟨rfl, rfl⟩
  · intro st ratio sz st2 h
    unfold EmptyImage.resize at h
    cases himg : st.image with
    | none =>
      rw [himg] at h
      cases h
    | some img =>
      rw [himg] at h
      cases hsz : st.size with
      | none =>
        rw [hsz] at h
        cases h
      | some sz0 =>
        rw [hsz] at h
        cases h
        exact ⟨rfl, rfl⟩

/-- C4 witness: the trim conjunct at a concrete input. -/
theorem c4_geometry_lockstep_witness :
    ({ pngSample100 with
        image := imCrop pngSample100.image 0 0 40 40
        width := 40
        height := 40 } : PngImage).width =
      ({ pngSample100 with
          image := imCrop pngSample100.image 0 0 40 40
          width := 40
          height := 40 } : PngImage).image.w ∧
    ({ pngSample100 with
        image := imCrop pngSample100.image 0 0 40 40
        width := 40
        height := 40 } : PngImage).height =
      ({ pngSample100 with
          image := imCrop pngSample100.image 0 0 40 40
          width := 40
          height := 40 } : PngImage).image.h :=
  c4_geometry_lockstep.2.2.2.1 pngSample100 ⟨0, 0, 40, 40⟩ (ImgSize.new 40 40)
    ({ pngSample100 with
        image := imCrop pngSample100.image 0 0 40 40
        width := 40
        height := 40 }) (by rfl)

/-! ## Claim C5: the save-path resolver -/

/-- C5.  The three-case path logic behaves as claimed (directory → join the
source file name and swap the extension; plain destination → verbatim; no
destination → source with swapped extension), but in both source-required
cases the resolver fails with the variant spelled
`DestinationPathMustBeSpecified` at src/backend.rs:137/152 — a variant that
src/errors.rs does not declare at all; the taxonomy declares
`SourcePathMustBeSpecified` (the error the claim names, and the one whose
message "Source path must be specified" describes the actually-missing
input). -/
theorem c5_save_path_resolver :
    get_save_filepath (fun _ => false) none none "png" =
      Except.error RusimgError.DestinationPathMustBeSpecified ∧
    get_save_filepath (fun _ => true) none (some dirSample) "png" =
      Except.error RusimgError.DestinationPathMustBeSpecified ∧
    (RusimgError.DestinationPathMustBeSpecified == RusimgError.SourcePathMustBeSpecified)
      = false ∧
    get_save_filepath (fun _ => false) (some srcSample) (some destFileSample) "png" =
      Except.ok destFileSample ∧
    get_save_filepath (fun _ => true) (some srcSample) (some dirSample) "webp" =
      Except.ok [⟨"out", none⟩, ⟨"img", some "webp"⟩] ∧
    get_save_filepath (fun _ => false) (some srcSample) none "jpg" =
      Except.ok [⟨"img", some "jpg"⟩] := by
  refine ⟨rfl, rfl, by decide, rfl, rfl, rfl⟩

/-! ## Claim C6: opening a non-existent path -/

/-- C6, counterexample.  The claim states that opening a path that does not
exist succeeds with an Empty-backed document.  On a file system with no
files, `open_image` returns `FailedToOpenFile` — exactly what the source's
own test `test_err_failed_to_open_file` (src/lib.rs:443-456) asserts.
(`Extension` has no Empty variant and src/backend.rs never references
`EmptyImage`, so no Empty-tagged document can even be built by the
dispatcher.) -/
theorem c6_open_missing_counterexample :
    open_image (fun _ => none) "No such file or directory (os error 2)" svcNone srcSample =
      Except.error (RusimgError.FailedToOpenFile "No such file or directory (os error 2)") := by
  rfl

/-- C6 (amended): for every path the file system cannot open, `open_image`
fails with `FailedToOpenFile` carrying the I/O diagnostic; no decode is
attempted and no document is constructed. -/
theorem c6_open_missing_path (readFile : FsPath → Option (List Nat)) (ioMsg : String)
    (svc : DecodeSvc) (path : FsPath) (h : readFile path = none) :
    open_image readFile ioMsg svc path =
      Except.error (RusimgError.FailedToOpenFile ioMsg) := by
  unfold open_image
  rw [h]

/-- C6 witness: the empty file system at a concrete path. -/
theorem c6_open_missing_path_witness :
    open_image (fun _ => none) "no such file" svcNone dirSample =
      Except.error (RusimgError.FailedToOpenFile "no such file") :=
  c6_open_missing_path (fun _ => none) "no such file" svcNone dirSample rfl

/-! ## Claim C7: Png quality bucketing and the cached buffer -/

/-- The cached-buffer branch of `PngImage::save`. -/
theorem pngSave_cached (isDir : FsPath → Bool) (st : PngImage)
    (path : Option FsPath) (save_path : FsPath) (b : List Nat)
    (hres : get_save_filepath isDir st.filepath_input path "png" = Except.ok save_path)
    (hib : st.image_bytes = some b) :
    PngImage.save isDir st path =
      Except.ok
        ({ st with metadata_output := some (), filepath_output := some save_path },
         PngWritten.cachedBytes b) := by
  unfold PngImage.save
  rw [hres, hib]

/-- C7: `PngImage::compress` buckets the quality at thresholds
17/34/51/68/85 onto oxipng preset levels 1–6, defaults to level 5 when the
quality is omitted, immediately stores the optimizer's output as the cached
byte buffer, and a subsequent successful `save` writes exactly that
buffer. -/
theorem c7_png_quality_buckets (oxipng : List Nat → Nat → List Nat)
    (st : PngImage) (q : ℚ) :
    (q ≤ 17 → pngLevelOf (some q) = 1) ∧
    (17 < q → q ≤ 34 → pngLevelOf (some q) = 2) ∧
    (34 < q → q ≤ 51 → pngLevelOf (some q) = 3) ∧
    (51 < q → q ≤ 68 → pngLevelOf (some q) = 4) ∧
    (68 < q → q ≤ 85 → pngLevelOf (some q) = 5) ∧
    (85 < q → pngLevelOf (some q) = 6) ∧
    pngLevelOf none = 5 ∧
    (∀ quality, (PngImage.compress oxipng st quality).image_bytes =
        some (oxipng st.binary_data (pngLevelOf quality))) ∧
    (∀ quality isDir path st2 wr,
        PngImage.save isDir (PngImage.compress oxipng st quality) path =
          Except.ok (st2, wr) →
        wr = PngWritten.cachedBytes (oxipng st.binary_data (pngLevelOf quality))) := by
  have hlvl : ∀ r : ℚ, pngLevelOf (some r) =
      (if r ≤ 17 then 1
       else if 17 < r ∧ r ≤ 34 then 2
       else if 34 < r ∧ r ≤ 51 then 3
       else if 51 < r ∧ r ≤ 68 then 4
       else if 68 < r ∧ r ≤ 85 then 5
       else 6) := fun r => rfl
  refine ⟨?_, ?_, ?_, ?_, ?_, ?_, rfl, ?_, ?_⟩
  · intro h
    rw [hlvl, if_pos h]
  · intro h1 h2
    rw [hlvl, if_neg (not_le.mpr h1), if_pos (And.intro h1 h2)]
  · intro h1 h2
    rw [hlvl, if_neg (show ¬ q ≤ 17 by intro hc; linarith),
      if_neg (show ¬ (17 < q ∧ q ≤ 34) by rintro ⟨-, hc⟩; linarith),
      if_pos (And.intro h1 h2)]
  · intro h1 h2
    rw [hlvl, if_neg (show ¬ q ≤ 17 by intro hc; linarith),
      if_neg (show ¬ (17 < q ∧ q ≤ 34) by rintro ⟨-, hc⟩; linarith),
      if_neg (show ¬ (34 < q ∧ q ≤ 51) by rintro ⟨-, hc⟩; linarith),
      if_pos (And.intro h1 h2)]
  · intro h1 h2
    rw [hlvl, if_neg (show ¬ q ≤ 17 by intro hc; linarith),
      if_neg (show ¬ (17 < q ∧ q ≤ 34) by rintro ⟨-, hc⟩; linarith),
      if_neg (show ¬ (34 < q ∧ q ≤ 51) by rintro ⟨-, hc⟩; linarith),
      if_neg (show ¬ (51 < q ∧ q ≤ 68) by rintro ⟨-, hc⟩; linarith),
      if_pos (And.intro h1 h2)]
  · intro h1
    rw [hlvl, if_neg (show ¬ q ≤ 17 by intro hc; linarith),
      if_neg (show ¬ (17 < q ∧ q ≤ 34) by rintro ⟨-, hc⟩; linarith),
      if_neg (show ¬ (34 < q ∧ q ≤ 51) by rintro ⟨-, hc⟩; linarith),
      if_neg (show ¬ (51 < q ∧ q ≤ 68) by rintro ⟨-, hc⟩; linarith),
      if_neg (show ¬ (68 < q ∧ q ≤ 85) by rintro ⟨-, hc⟩; linarith)]
  · intro quality
    rfl
  · intro quality isDir path st2 wr h
    cases hres : get_save_filepath isDir
        (PngImage.compress oxipng st quality).filepath_input path "png" with
    | error e =>
      unfold PngImage.save at h
      rw [hres] at h
      cases h
    | ok sp =>
      rw [pngSave_cached isDir _ path sp _ hres rfl] at h
      cases h
      rfl

/-- C7 witness: the spec's own sample points — quality 10 selects the
lowest level, 90 the highest, omitted quality the default level 5. -/
theorem c7_png_quality_buckets_witness :
    pngLevelOf (some 10) = 1 ∧ pngLevelOf (some 90) = 6 ∧ pngLevelOf none = 5 :=
  ⟨(c7_png_quality_buckets oxipngSample pngSample100 10).1 (by norm_num),
   (c7_png_quality_buckets oxipngSample pngSample100 90).2.2.2.2.2.1 (by norm_num),
   (c7_png_quality_buckets oxipngSample pngSample100 90).2.2.2.2.2.2.1⟩

/-! ## Claim C8: last compress call wins -/

/-- Unfolding a compress sequence one step (all three backends). -/
theorem webpCompressSeq_cons (st : WebpImage) (q : Option ℚ) (qs : List (Option ℚ)) :
    WebpImage.compressSeq st (q :: qs) = WebpImage.compressSeq (st.compress q) qs :=
  rfl

/-- A Webp compress sequence touches only `required_quality` and the
counter. -/
theorem webpCompressSeq_frame (st : WebpImage) (qs : List (Option ℚ)) :
    (WebpImage.compressSeq st qs).image = st.image ∧
    (WebpImage.compressSeq st qs).image_bytes = st.image_bytes ∧
    (WebpImage.compressSeq st qs).filepath_input = st.filepath_input := by
  induction qs generalizing st with
  | nil => exact ⟨rfl, rfl, rfl⟩
  | cons q qs ih => exact ih (st.compress q)

/-- A Webp compress sequence adds its length to the counter. -/
theorem webpCompressSeq_count (st : WebpImage) (qs : List (Option ℚ)) :
    (WebpImage.compressSeq st qs).operations_count =
      st.operations_count + qs.length := by
  induction qs generalizing st with
  | nil => rfl
  | cons q qs ih =>
    rw [webpCompressSeq_cons, ih (st.compress q)]
    show st.operations_count + 1 + qs.length = st.operations_count + (qs.length + 1)
    omega

/-- After a nonempty Webp compress sequence the stored quality is the last
call's argument (a trailing `compress(None)` resets it to `none`). -/
theorem webpCompressSeq_quality (st : WebpImage) (qs : List (Option ℚ))
    (q : Option ℚ) (h : qs.getLast? = some q) :
    (WebpImage.compressSeq st qs).required_quality = q := by
  induction qs generalizing st with
  | nil => cases h
  | cons q0 qs ih =>
    cases qs with
    | nil =>
      simp only [List.getLast?_singleton, Option.some.injEq] at h
      rw [← h]
      rfl
    | cons q1 qs2 =>
      rw [webpCompressSeq_cons]
      exact ih (st.compress q0) (by rw [← List.getLast?_cons_cons (l := qs2)]; exact h)

/-- A Png compress sequence touches only `image_bytes` and the counter. -/
theorem pngCompressSeq_frame (oxipng : List Nat → Nat → List Nat)
    (st : PngImage) (qs : List (Option ℚ)) :
    (PngImage.compressSeq oxipng st qs).binary_data = st.binary_data ∧
    (PngImage.compressSeq oxipng st qs).filepath_input = st.filepath_input := by
  induction qs generalizing st with
  | nil => exact ⟨rfl, rfl⟩
  | cons q qs ih => exact ih (PngImage.compress oxipng st q)

/-- After a nonempty Png compress sequence the cached buffer is the
optimizer's output for the *last* call's level, applied to the unchanged
original bytes. -/
theorem pngCompressSeq_bytes (oxipng : List Nat → Nat → List Nat)
    (st : PngImage) (qs : List (Option ℚ)) (q : Option ℚ)
    (h : qs.getLast? = some q) :
    (PngImage.compressSeq oxipng st qs).image_bytes =
      some (oxipng st.binary_data (pngLevelOf q)) := by
  induction qs generalizing st with
  | nil => cases h
  | cons q0 qs ih =>
    cases qs with
    | nil =>
      simp only [List.getLast?_singleton, Option.some.injEq] at h
      rw [← h]
      rfl
    | cons q1 qs2 =>
      exact ih (PngImage.compress oxipng st q0)
        (by rw [← List.getLast?_cons_cons (l := qs2)]; exact h)

/-- A Jpeg compress sequence touches only `image_bytes` and the counter. -/
theorem jpegCompressSeq_frame (mozjpeg : Pix → Nat → Nat → ℚ → List Nat)
    (st : JpegImage) (qs : List (Option ℚ)) :
    (JpegImage.compressSeq mozjpeg st qs).image = st.image ∧
    (JpegImage.compressSeq mozjpeg st qs).size = st.size ∧
    (JpegImage.compressSeq mozjpeg st qs).extension_str = st.extension_str ∧
    (JpegImage.compressSeq mozjpeg st qs).filepath_input = st.filepath_input := by
  induction qs generalizing st with
  | nil => exact ⟨rfl, rfl, rfl, rfl⟩
  | cons q qs ih => exact ih (JpegImage.compress mozjpeg st q)

/-- After a nonempty Jpeg compress sequence the cached buffer is the
encoder's output for the *last* call's quality, applied to the unchanged
pixels and size. -/
theorem jpegCompressSeq_bytes (mozjpeg : Pix → Nat → Nat → ℚ → List Nat)
    (st : JpegImage) (qs : List (Option ℚ)) (q : Option ℚ)
    (h : qs.getLast? = some q) :
    (JpegImage.compressSeq mozjpeg st qs).image_bytes =
      some (mozjpeg st.image.pix st.size.width st.size.height (q.getD 75)) := by
  induction qs generalizing st with
  | nil => cases h
  | cons q0 qs ih =>
    cases qs with
    | nil =>
      simp only [List.getLast?_singleton, Option.some.injEq] at h
      rw [← h]
      rfl
    | cons q1 qs2 =>
      exact ih (JpegImage.compress mozjpeg st q0)
        (by rw [← List.getLast?_cons_cons (l := qs2)]; exact h)

/-- The cached-buffer branch of `JpegImage::save`. -/
theorem jpegSave_cached (isDir : FsPath → Bool) (st : JpegImage)
    (path : Option FsPath) (save_path : FsPath) (b : List Nat)
    (hres : get_save_filepath isDir st.filepath_input path st.extension_str =
      Except.ok save_path)
    (hib : st.image_bytes = some b) :
    JpegImage.save isDir st path =
      Except.ok
        ({ st with metadata_output := some (), filepath_output := some save_path },
         JpegWritten.cachedBytes b) := by
  unfold JpegImage.save
  rw [hres, hib]

/-- C8: for the Webp (lazy), Png (eager) and Jpeg (eager) backends, the
bytes a subsequent save writes after any nonempty sequence of successful
compress calls are exactly the bytes it would write had only the last call
of the sequence been made: Webp stores only the last requested quality and
(the counter being nonzero either way) re-encodes the unchanged pixels with
it; Png and Jpeg overwrite the cached buffer from unchanged inputs on every
call. -/
theorem c8_last_compress_wins (oxipng : List Nat → Nat → List Nat)
    (mozjpeg : Pix → Nat → Nat → ℚ → List Nat) (isDir : FsPath → Bool)
    (stw : WebpImage) (stp : PngImage) (stj : JpegImage)
    (path : Option FsPath) (qs : List (Option ℚ)) (q : Option ℚ)
    (hlast : qs.getLast? = some q) :
    (WebpImage.save isDir (WebpImage.compressSeq stw qs) path).map Prod.snd =
      (WebpImage.save isDir (WebpImage.compress stw q) path).map Prod.snd ∧
    (PngImage.save isDir (PngImage.compressSeq oxipng stp qs) path).map Prod.snd =
      (PngImage.save isDir (PngImage.compress oxipng stp q) path).map Prod.snd ∧
    (JpegImage.save isDir (JpegImage.compressSeq mozjpeg stj qs) path).map Prod.snd =
      (JpegImage.save isDir (JpegImage.compress mozjpeg stj q) path).map Prod.snd := by
  have hne : qs ≠ [] := by
    intro he
    rw [he] at hlast
    cases hlast
  have hlen : qs.length ≠ 0 := by
    simpa [List.length_eq_zero] using hne
  refine ⟨?_, ?_, ?_⟩
  · obtain ⟨him, hib, hfp⟩ := webpCompressSeq_frame stw qs
    have hc1 : (WebpImage.compressSeq stw qs).operations_count ≠ 0 := by
      rw [webpCompressSeq_count]
      omega
    have hc2 : (WebpImage.compress stw q).operations_count ≠ 0 := by
      show stw.operations_count + 1 ≠ 0
      omega
    cases hres : get_save_filepath isDir stw.filepath_input path "webp" with
    | error e =>
      have h1 : WebpImage.save isDir (WebpImage.compressSeq stw qs) path =
          Except.error e := by
        unfold WebpImage.save
        rw [hfp, hres]
      have h2 : WebpImage.save isDir (WebpImage.compress stw q) path =
          Except.error e := by
        unfold WebpImage.save
        rw [show (WebpImage.compress stw q).filepath_input = stw.filepath_input from rfl,
          hres]
      rw [h1, h2]
    | ok sp =>
      rw [webpSave_encode_of_cnt isDir _ path sp (by rw [hfp]; exact hres) hc1,
        webpSave_encode_of_cnt isDir (stw.compress q) path sp hres hc2]
      rw [him, webpCompressSeq_quality stw qs q hlast]
      rfl
  · obtain ⟨hbd, hfp⟩ := pngCompressSeq_frame oxipng stp qs
    cases hres : get_save_filepath isDir stp.filepath_input path "png" with
    | error e =>
      have h1 : PngImage.save isDir (PngImage.compressSeq oxipng stp qs) path =
          Except.error e := by
        unfold PngImage.save
        rw [hfp, hres]
      have h2 : PngImage.save isDir (PngImage.compress oxipng stp q) path =
          Except.error e := by
        unfold PngImage.save
        rw [show (PngImage.compress oxipng stp q).filepath_input = stp.filepath_input from
          rfl, hres]
      rw [h1, h2]
    | ok sp =>
      rw [pngSave_cached isDir _ path sp _ (by rw [hfp]; exact hres)
          (pngCompressSeq_bytes oxipng stp qs q hlast),
        pngSave_cached isDir (PngImage.compress oxipng stp q) path sp
          (oxipng stp.binary_data (pngLevelOf q)) hres rfl]
      rfl
  · obtain ⟨him, hsz, hes, hfp⟩ := jpegCompressSeq_frame mozjpeg stj qs
    cases hres : get_save_filepath isDir stj.filepath_input path stj.extension_str with
    | error e =>
      have h1 : JpegImage.save isDir (JpegImage.compressSeq mozjpeg stj qs) path =
          Except.error e := by
        unfold JpegImage.save
        rw [hfp, hes, hres]
      have h2 : JpegImage.save isDir (JpegImage.compress mozjpeg stj q) path =
          Except.error e := by
        unfold JpegImage.save
        rw [show (JpegImage.compress mozjpeg stj q).filepath_input = stj.filepath_input from
          rfl, show (JpegImage.compress mozjpeg stj q).extension_str = stj.extension_str from
          rfl, hres]
      rw [h1, h2]
    | ok sp =>
      rw [jpegSave_cached isDir _ path sp _ (by rw [hfp, hes]; exact hres)
          (jpegCompressSeq_bytes mozjpeg stj qs q hlast),
        jpegSave_cached isDir (JpegImage.compress mozjpeg stj q) path sp
          (mozjpeg stj.image.pix stj.size.width stj.size.height (q.getD 75)) hres rfl]
      rfl

/-- C8 witness: the sequence `compress(30); compress(None); compress(80)`
then save, against a single `compress(80)` then save, on concrete opened
states. -/
theorem c8_last_compress_wins_witness :
    (PngImage.save (fun _ => false)
        (PngImage.compressSeq oxipngSample pngSample100 [some 30, none, some 80])
        none).map Prod.snd =
      (PngImage.save (fun _ => false)
        (PngImage.compress oxipngSample pngSample100 (some 80)) none).map Prod.snd :=
  (c8_last_compress_wins oxipngSample mozjpegSample (fun _ => false)
      webpStSample pngSample100 jpegSample100 none [some 30, none, some 80]
      (some 80) (by rfl)).2.1

/-! ## Claim C9: facade argument validation -/

/-- C9: the `RusImg` facade itself validates the cross-cutting argument
constraints before any backend is involved: for *every* backend behaviour,
`resize` with ratio ≤ 0 returns `InvalidResizeRatio` and `compress` with a
supplied quality outside `[0, 100]` returns `InvalidCompressionLevel`,
while in-range arguments — the boundaries 0 and 100 and an omitted quality
included — are handed to the backend unchanged. -/
theorem c9_facade_validation :
    (∀ backendResize ratio, ratio ≤ 0 →
        rusimgResize backendResize ratio = Except.error RusimgError.InvalidResizeRatio) ∧
    (∀ backendResize ratio, 0 < ratio →
        rusimgResize backendResize ratio = backendResize ratio) ∧
    (∀ backendCompress q, q < 0 ∨ 100 < q →
        rusimgCompress backendCompress (some q) =
          Except.error RusimgError.InvalidCompressionLevel) ∧
    (∀ backendCompress q, 0 ≤ q → q ≤ 100 →
        rusimgCompress backendCompress (some q) = backendCompress (some q)) ∧
    (∀ backendCompress, rusimgCompress backendCompress none = backendCompress none) := by
  refine ⟨?_, ?_, ?_, ?_, ?_⟩
  · intro backendResize ratio h
    unfold rusimgResize
    rw [if_pos h]
  · intro backendResize ratio h
    unfold rusimgResize
    rw [if_neg (not_le.mpr h)]
  · intro backendCompress q h
    show (if q < 0 ∨ 100 < q then Except.error RusimgError.InvalidCompressionLevel
      else backendCompress (some q)) = Except.error RusimgError.InvalidCompressionLevel
    rw [if_pos h]
  · intro backendCompress q h0 h100
    show (if q < 0 ∨ 100 < q then Except.error RusimgError.InvalidCompressionLevel
      else backendCompress (some q)) = backendCompress (some q)
    rw [if_neg (show ¬ (q < 0 ∨ 100 < q) by rintro (hc | hc) <;> linarith)]
  · intro backendCompress
    rfl

/-- C9 witness: ratio 0 is rejected for an arbitrary concrete backend, and
the boundary quality 100 is passed through to it. -/
theorem c9_facade_validation_witness :
    rusimgResize (fun _ => Except.ok (ImgSize.new 1 1)) 0 =
      Except.error RusimgError.InvalidResizeRatio ∧
    rusimgCompress (fun _ => Except.ok ()) (some 100) = Except.ok () :=
  ⟨c9_facade_validation.1 (fun _ => Except.ok (ImgSize.new 1 1)) 0 (by norm_num),
   c9_facade_validation.2.2.2.1 (fun _ => Except.ok ()) 100 (by norm_num) (by norm_num)⟩

/-! ## Claim C10: grayscale totality -/

/-- C10.  The claim states `grayscale()` succeeds unconditionally on every
backend in every reachable state, including an Empty backend created with no
pixel buffer.  But `EmptyImage::grayscale` (src/backend/empty/mod.rs:105-107)
runs `self.image.clone().unwrap()`: on the state produced by
`EmptyImage::import(None, None, None)` — which the same file's `resize` and
`trim` guard with `ImageNotSpecified`, a guard `grayscale`'s `()`-returning
trait signature cannot express — the `unwrap` panics (embedded as `none`),
and the panic propagates through `RusImg::grayscale`.  (The Empty backend
also has no operation counter to increment.) -/
theorem c10_empty_grayscale_panics :
    EmptyImage.import none none none =
      Except.ok { image := none, size := none, source_path := none } ∧
    EmptyImage.grayscale { image := none, size := none, source_path := none } = none ∧
    rusimgGrayscaleEmpty { image := none, size := none, source_path := none } = none := by
  exact ⟨rfl, rfl, rfl⟩
